import Mathlib

/-!
Shallow embedding of `src/server.js`, the Express server of the
location-based first-come-first-served ("선착순") promotion event.

The server keeps two JSON documents on disk: `winners.json`, a mapping from
locationId to the winning access record, and `logs.json`, an ordered array of
access records.  Each HTTP handler loads the documents it needs, computes, and
writes whole documents back with `saveData`.  We model the JSON documents as
association lists / lists, a handler as a pure function from the stored state
(plus the request, including the values the server would draw from its clock)
to a response and the new stored state, and `saveData` failures as a flag that
leaves the stored document unchanged (the source's `saveData` catches every
write error and merely logs it, so no error ever escapes to the handler).
-/

/-- Display metadata of one promotion location (the values of the `LOCATIONS`
object, lines 17–23 of `server.js`). -/
structure Location where
  name : String
  prize : String
  emoji : String
deriving DecidableEq

/-- The static location catalog (`LOCATIONS`, lines 17–23), as an association
list mirroring the JS object literal's key order. -/
def LOCATIONS : List (String × Location) :=
  [ ("gangnam",    ⟨"강남역", "스타벅스 아메리카노", "☕"⟩),
    ("hongdae",    ⟨"홍대입구역", "투썸플레이스 케이크", "🍰"⟩),
    ("myeongdong", ⟨"명동역", "이디야 아이스크림", "🍦"⟩),
    ("itaewon",    ⟨"이태원역", "할리스 원두커피", "☕"⟩),
    ("jamsil",     ⟨"잠실역", "메가커피 음료수", "🥤"⟩) ]

/-- JS object property read `m[k]` on an object modeled as an association
list: the value at the first matching key, or `none` (`undefined`). -/
def lookupKey {α : Type} (m : List (String × α)) (k : String) : Option α :=
  (m.find? (fun p => p.1 == k)).map Prod.snd

/-- JS object property write `m[k] = v`: replaces the value at an existing
key in place, or appends the new key at the end (JS insertion order). -/
def setKey {α : Type} (m : List (String × α)) (k : String) (v : α) :
    List (String × α) :=
  match m with
  | [] => [(k, v)]
  | (k1, v1) :: rest =>
      if k1 == k then (k, v) :: rest else (k1, v1) :: setKey rest k v

/-- `xs.slice(-n)`: the suffix of the most recent `n` elements (all of `xs`
when `xs` is shorter than `n`). -/
def lastN {α : Type} (n : Nat) (xs : List α) : List α :=
  xs.drop (xs.length - n)

/-- One access record (`accessLog`, lines 98–105), as it ends up in the
`logs.json` array after line 129 set its `isWinner` field.  `id` is the value
of `Date.now()` (milliseconds), `accessTime` the client-reported time from the
request body, and `timestamp` the server's `new Date().toISOString()`. -/
structure AccessLog where
  id : Nat
  locationId : String
  accessTime : String
  ip : String
  userAgent : String
  timestamp : String
  isWinner : Bool
deriving DecidableEq

/-- A value of the `winners.json` mapping: `{...accessLog, winner: true}`
(lines 113–116).  The spread happens before line 129, so the record carries no
`isWinner` field, only the constant `winner: true` marker. -/
structure WinnerRecord where
  id : Nat
  locationId : String
  accessTime : String
  ip : String
  userAgent : String
  timestamp : String
  winner : Bool
deriving DecidableEq

/-- The durable state: the contents of `winners.json` (locationId ↦ winning
record) and `logs.json` (ordered access log). -/
structure ServerState where
  winners : List (String × WinnerRecord)
  logs : List AccessLog
deriving DecidableEq

/-- The state of a fresh data directory: `loadData` returns the defaults
`{}` and `[]` when the files do not exist (lines 40–47, 94–95). -/
def initState : ServerState := ⟨[], []⟩

/-- One `POST /api/participate` request together with the values the server
draws from its environment while handling it: `locationId`, `accessTime` and
`userAgent` come from the JSON body, `ip` from the connection, `now` is what
`Date.now()` returns at line 99 and `nowISO` what
`new Date().toISOString()` returns at line 104. -/
structure Request where
  locationId : String
  accessTime : String
  userAgent : String
  ip : String
  now : Nat
  nowISO : String
deriving DecidableEq

/-- The JSON body answered by `POST /api/participate` (lines 139–146). -/
structure ParticipateResponse where
  isWinner : Bool
  locationName : String
  prize : String
  emoji : String
  accessTime : String
  winnerTime : Option String
deriving DecidableEq

/-- The fresh access record of lines 98–105 (before line 129 its `isWinner`
property does not exist yet; we carry the field initialized to `false`). -/
def mkAccessLog (r : Request) : AccessLog :=
  { id := r.now, locationId := r.locationId, accessTime := r.accessTime,
    ip := r.ip, userAgent := r.userAgent, timestamp := r.nowISO,
    isWinner := false }

/-- `{...accessLog, winner: true}` (lines 113–116). -/
def winnerRecordOf (a : AccessLog) : WinnerRecord :=
  { id := a.id, locationId := a.locationId, accessTime := a.accessTime,
    ip := a.ip, userAgent := a.userAgent, timestamp := a.timestamp,
    winner := true }

/-- Lines 133–135: `if (logs.length > 1000) logs.splice(0, logs.length - 1000)`
— keep only the most recent 1000 entries. -/
def truncateLogs (logs : List AccessLog) : List AccessLog :=
  if logs.length > 1000 then logs.drop (logs.length - 1000) else logs

/-- The audit-log append of lines 128–137: push the adjudicated record, then
truncate to the most recent 1000 entries. -/
def appendLog (logs : List AccessLog) (e : AccessLog) : List AccessLog :=
  truncateLogs (logs ++ [e])

/-- Lines 97–146 of the participate handler after both `loadData` awaits have
returned: the adjudication and the two document writes.  `localWinners` and
`localLogs` are the copies of the documents this call loaded (lines 94–95);
`shared` is the durable state at the moment the writes run.  `saveData` writes
the whole document built from the call's local copy, so it overwrites whatever
the durable document held; a failing write (`wFail` for `winners.json`,
`lfFail` for `logs.json`) leaves the durable document unchanged and raises no
error, because `saveData` (lines 50–56) catches and only logs it. -/
def commitPhase (wFail lfFail : Bool) (shared : ServerState) (r : Request)
    (loc : Location) (localWinners : List (String × WinnerRecord))
    (localLogs : List AccessLog) : ParticipateResponse × ServerState :=
  let a := mkAccessLog r
  match lookupKey localWinners r.locationId with
  | none =>
      -- lines 111–122: first visitor for this location — winner
      let winners1 := setKey localWinners r.locationId (winnerRecordOf a)
      let logs1 := appendLog localLogs { a with isWinner := true }
      ({ isWinner := true, locationName := loc.name, prize := loc.prize,
         emoji := loc.emoji, accessTime := r.accessTime, winnerTime := none },
       { winners := if wFail then shared.winners else winners1,
         logs := if lfFail then shared.logs else logs1 })
  | some w =>
      -- lines 123–126: a winner already exists — loser, no winners write
      let logs1 := appendLog localLogs { a with isWinner := false }
      ({ isWinner := false, locationName := loc.name, prize := loc.prize,
         emoji := loc.emoji, accessTime := r.accessTime,
         winnerTime := some w.accessTime },
       { winners := shared.winners,
         logs := if lfFail then shared.logs else logs1 })

/-- The whole participate handler resumed with given loaded copies of the two
documents: the catalog check of lines 89–91 (HTTP 400 on an unknown id, before
anything is loaded or written), then `commitPhase`. -/
def participateResume (wFail lfFail : Bool) (shared : ServerState)
    (r : Request) (localWinners : List (String × WinnerRecord))
    (localLogs : List AccessLog) :
    Except String ParticipateResponse × ServerState :=
  match lookupKey LOCATIONS r.locationId with
  | none => (.error "존재하지 않는 장소입니다.", shared)
  | some loc =>
      let (res, s1) := commitPhase wFail lfFail shared r loc localWinners localLogs
      (.ok res, s1)

/-- `POST /api/participate` (lines 85–147) run without interference: the local
copies are loaded from the current durable state and both writes succeed. -/
def participate (s : ServerState) (r : Request) :
    Except String ParticipateResponse × ServerState :=
  participateResume false false s r s.winners s.logs

/-- `POST /api/participate` where the `saveData` calls may fail (the writes
are lost, but `saveData` swallows the error). -/
def participateF (wFail lfFail : Bool) (s : ServerState) (r : Request) :
    Except String ParticipateResponse × ServerState :=
  participateResume wFail lfFail s r s.winners s.logs

/-- The JSON answered by `GET /api/locations/:locationId` (lines 76–81). -/
structure LocationDetail where
  name : String
  prize : String
  emoji : String
  locationId : String
  hasWinner : Bool
  winnerTime : Option String
deriving DecidableEq

/-- `GET /api/locations/:locationId` (lines 66–82): 404 on an unknown id,
otherwise the catalog fields plus `hasWinner` and — when a winner exists — the
winner's recorded `accessTime` (`null` otherwise). -/
def getLocationById (s : ServerState) (locationId : String) :
    Except String LocationDetail :=
  match lookupKey LOCATIONS locationId with
  | none => .error "존재하지 않는 장소입니다."
  | some loc =>
      .ok { name := loc.name, prize := loc.prize, emoji := loc.emoji,
            locationId := locationId,
            hasWinner := (lookupKey s.winners locationId).isSome,
            winnerTime := (lookupKey s.winners locationId).map
              (fun w => w.accessTime) }

/-- One entry of the `GET /api/admin/winners` answer: the stored record
enriched with `locationInfo` (lines 154–160; `undefined` when the id has left
the catalog). -/
structure WinnerView where
  record : WinnerRecord
  locationInfo : Option Location
deriving DecidableEq

/-- `GET /api/admin/winners` (lines 150–163). -/
def adminWinners (s : ServerState) : List (String × WinnerView) :=
  s.winners.map (fun p =>
    (p.1, { record := p.2, locationInfo := lookupKey LOCATIONS p.1 }))

/-- One entry of the `GET /api/admin/logs` answer (lines 173–176). -/
structure LogView where
  entry : AccessLog
  locationInfo : Option Location
deriving DecidableEq

/-- `GET /api/admin/logs` (lines 166–179): `logs.slice(-100).reverse()`, each
entry enriched with its catalog metadata. -/
def adminLogs (s : ServerState) : List LogView :=
  ((lastN 100 s.logs).reverse).map (fun a =>
    { entry := a, locationInfo := lookupKey LOCATIONS a.locationId })

/-- The write step of `saveData` (lines 50–56) on one document: on failure
the document on disk keeps its old value; the error is caught inside
`saveData`, so the function itself reports success either way. -/
def saveDataDoc {α : Type} (fail : Bool) (old new : α) : α :=
  if fail then old else new

/-- What escapes `saveData` (lines 50–56) towards its caller: the whole body
is wrapped in `try … catch`, and the catch arm only `console.error`s, so no
error ever escapes, whatever the write did. -/
def saveDataOutcome (fail : Bool) : Except String Unit :=
  match fail with
  | true => .ok ()
  | false => .ok ()

/-- `POST /api/admin/reset` (lines 182–193) with possibly failing document
writes: the handler's `try` block awaits `saveData` twice and answers the
confirmation message; its `catch` arm would answer an HTTP 500, but it can
only run if a `saveData` call throws. -/
def adminResetF (wFail lfFail : Bool) (s : ServerState) :
    Except String String × ServerState :=
  match saveDataOutcome wFail, saveDataOutcome lfFail with
  | .ok _, .ok _ =>
      (.ok "이벤트가 초기화되었습니다.",
       { winners := saveDataDoc wFail s.winners [],
         logs := saveDataDoc lfFail s.logs [] })
  | _, _ =>
      (.error "초기화에 실패했습니다.",
       { winners := saveDataDoc wFail s.winners [],
         logs := saveDataDoc lfFail s.logs [] })

/-- `POST /api/admin/reset` with both writes succeeding. -/
def adminReset (s : ServerState) : Except String String × ServerState :=
  adminResetF false false s

/-- One entry of `participantsByLocation` in the stats answer
(lines 209–213). -/
structure LocationStat where
  name : String
  count : Nat
  hasWinner : Bool
deriving DecidableEq

/-- The JSON answered by `GET /api/admin/stats` (lines 200–216). -/
structure Stats where
  totalLocations : Nat
  winnersCount : Nat
  totalParticipants : Nat
  participantsByLocation : List (String × LocationStat)
deriving DecidableEq

/-- `GET /api/admin/stats` (lines 196–217): catalog size, number of winner
entries, log length, and per catalog location its name, the number of log
entries carrying its id, and whether it has a winner. -/
def adminStats (s : ServerState) : Stats :=
  { totalLocations := LOCATIONS.length,
    winnersCount := s.winners.length,
    totalParticipants := s.logs.length,
    participantsByLocation := LOCATIONS.map (fun p =>
      (p.1, { name := p.2.name,
              count := (s.logs.filter
                (fun a => a.locationId == p.1)).length,
              hasWinner := (lookupKey s.winners p.1).isSome })) }

/-- First visit of the §8 scenario: location A = `gangnam` at client time t1.
The client-reported `accessTime` and the server clock deliberately differ. -/
def reqA1 : Request :=
  { locationId := "gangnam", accessTime := "t1-client", userAgent := "ua-1",
    ip := "10.0.0.1", now := 1001, nowISO := "t1-server" }

/-- Second visit of the §8 scenario: location B = `hongdae` at t1. -/
def reqB1 : Request :=
  { locationId := "hongdae", accessTime := "t1-client", userAgent := "ua-2",
    ip := "10.0.0.2", now := 1002, nowISO := "t2-server" }

/-- Third visit of the §8 scenario: location A = `gangnam` again, at t2. -/
def reqA2 : Request :=
  { locationId := "gangnam", accessTime := "t2-client", userAgent := "ua-3",
    ip := "10.0.0.3", now := 1003, nowISO := "t3-server" }

/-- State after the first scenario visit. -/
def scenState1 : ServerState := (participate initState reqA1).2

/-- State after the first two scenario visits. -/
def scenState2 : ServerState := (participate scenState1 reqB1).2

/-- State after all three scenario visits. -/
def scenState3 : ServerState := (participate scenState2 reqA2).2

/-- A second `gangnam` request, racing against `reqA1`. -/
def reqRace : Request :=
  { locationId := "gangnam", accessTime := "t1-client-b", userAgent := "ua-4",
    ip := "10.0.0.4", now := 1001, nowISO := "t1-server" }

/-- Two `POST /api/participate` calls for `gangnam` interleaved on the event
loop: both calls complete their `loadData` awaits (lines 94–95) against the
initial state before either reaches `saveData`; then the first call runs
lines 97–146 to completion, then the second does — each adjudicating against
the `winners` document it loaded at the start.  Returns both outcomes and the
final durable state. -/
def raceRun :
    (Except String ParticipateResponse × Except String ParticipateResponse)
      × ServerState :=
  let step1 := participateResume false false initState reqA1
    initState.winners initState.logs
  let step2 := participateResume false false step1.2 reqRace
    initState.winners initState.logs
  ((step1.1, step2.1), step2.2)

/-- Two requests handled within the same millisecond (`Date.now()` returns
the same value for both), at different locations. -/
def reqMs1 : Request :=
  { locationId := "gangnam", accessTime := "t5-client", userAgent := "ua-5",
    ip := "10.0.0.5", now := 7777, nowISO := "t5-server" }

/-- Second request in the same millisecond as `reqMs1`. -/
def reqMs2 : Request :=
  { locationId := "hongdae", accessTime := "t6-client", userAgent := "ua-6",
    ip := "10.0.0.6", now := 7777, nowISO := "t5-server" }

/-- State after handling `reqMs1` then `reqMs2` sequentially. -/
def sameMsState : ServerState :=
  (participate (participate initState reqMs1).2 reqMs2).2

/-- A request naming a locationId absent from the catalog. -/
def reqUnknown : Request :=
  { locationId := "seoul", accessTime := "t7-client", userAgent := "ua-7",
    ip := "10.0.0.7", now := 8888, nowISO := "t7-server" }

deriving instance DecidableEq for Except

lemma truncateLogs_eq_lastN (xs : List AccessLog) :
    truncateLogs xs = lastN 1000 xs := by
  unfold truncateLogs lastN
  split
  · rfl
  · next h =>
      have h0 : xs.length - 1000 = 0 := by omega
      rw [h0, List.drop_zero]

lemma lastN_append_left {α : Type} (n : Nat) (xs ys : List α) :
    lastN n (lastN n xs ++ ys) = lastN n (xs ++ ys) := by
  unfold lastN
  rw [← List.drop_append_of_le_length (Nat.sub_le xs.length n)]
  rw [List.drop_drop]
  congr 1
  simp only [List.length_drop, List.length_append]
  omega

lemma foldl_appendLog (es acc pre : List AccessLog)
    (h : acc = lastN 1000 pre) :
    es.foldl appendLog acc = lastN 1000 (pre ++ es) := by
  induction es generalizing acc pre with
  | nil => simpa using h
  | cons e rest ih =>
      rw [List.foldl_cons]
      have hstep : appendLog acc e = lastN 1000 (pre ++ [e]) := by
        rw [h, appendLog, truncateLogs_eq_lastN, lastN_append_left]
      rw [ih _ _ hstep]
      simp [List.append_assoc]

lemma foldl_appendLog_nil (es : List AccessLog) :
    es.foldl appendLog [] = lastN 1000 es := by
  simpa using foldl_appendLog es [] [] rfl

lemma lookupKey_eq_none_iff {α : Type} (m : List (String × α)) (k : String) :
    lookupKey m k = none ↔ k ∉ m.map Prod.fst := by
  unfold lookupKey
  rw [Option.map_eq_none', List.find?_eq_none]
  simp only [beq_iff_eq, List.mem_map, not_exists]
  aesop

lemma setKey_map_fst {α : Type} (m : List (String × α)) (k : String) (v : α) :
    (setKey m k v).map Prod.fst =
      if (lookupKey m k).isSome then m.map Prod.fst
      else m.map Prod.fst ++ [k] := by
  induction m with
  | nil => simp [setKey, lookupKey]
  | cons p rest ih =>
      obtain ⟨k1, v1⟩ := p
      by_cases hk : k1 == k
      · have hkeq : k1 = k := by simpa using hk
        simp [setKey, lookupKey, hk, hkeq]
      · have hset : setKey ((k1, v1) :: rest) k v =
            (k1, v1) :: setKey rest k v := by
          simp only [setKey]
          rw [if_neg hk]
        have hfind : List.find? (fun p : String × α => p.1 == k)
              ((k1, v1) :: rest) =
            List.find? (fun p : String × α => p.1 == k) rest :=
          List.find?_cons_of_neg rest hk
        have hlk : lookupKey ((k1, v1) :: rest) k = lookupKey rest k := by
          unfold lookupKey
          rw [hfind]
        rw [hset, List.map_cons, ih, hlk]
        split <;> simp

lemma setKey_keys_nodup {α : Type} (m : List (String × α)) (k : String)
    (v : α) (h : (m.map Prod.fst).Nodup) :
    ((setKey m k v).map Prod.fst).Nodup := by
  rw [setKey_map_fst]
  cases hlk : lookupKey m k with
  | some w => simpa using h
  | none =>
      simp only [Option.isSome_none, Bool.false_eq_true, if_false]
      rw [List.nodup_append]
      exact ⟨h, List.nodup_singleton k,
        by simpa using fun hx => (lookupKey_eq_none_iff m k).mp hlk hx⟩

lemma participateResume_of_known (wF lF : Bool) (shared : ServerState)
    (r : Request) (loc : Location) (lw : List (String × WinnerRecord))
    (ll : List AccessLog) (hl : lookupKey LOCATIONS r.locationId = some loc) :
    participateResume wF lF shared r lw ll =
      (Except.ok (commitPhase wF lF shared r loc lw ll).1,
       (commitPhase wF lF shared r loc lw ll).2) := by
  unfold participateResume
  rw [hl]

lemma participateResume_of_unknown (wF lF : Bool) (shared : ServerState)
    (r : Request) (lw : List (String × WinnerRecord)) (ll : List AccessLog)
    (hl : lookupKey LOCATIONS r.locationId = none) :
    participateResume wF lF shared r lw ll =
      (Except.error "존재하지 않는 장소입니다.", shared) := by
  unfold participateResume
  rw [hl]

lemma commitPhase_of_winner (wF lF : Bool) (shared : ServerState)
    (r : Request) (loc : Location) (lw : List (String × WinnerRecord))
    (ll : List AccessLog) (w : WinnerRecord)
    (h : lookupKey lw r.locationId = some w) :
    commitPhase wF lF shared r loc lw ll =
      ({ isWinner := false, locationName := loc.name, prize := loc.prize,
         emoji := loc.emoji, accessTime := r.accessTime,
         winnerTime := some w.accessTime },
       { winners := shared.winners,
         logs := if lF then shared.logs
                 else appendLog ll { mkAccessLog r with isWinner := false } }) := by
  unfold commitPhase
  rw [h]

lemma commitPhase_of_no_winner (wF lF : Bool) (shared : ServerState)
    (r : Request) (loc : Location) (lw : List (String × WinnerRecord))
    (ll : List AccessLog) (h : lookupKey lw r.locationId = none) :
    commitPhase wF lF shared r loc lw ll =
      ({ isWinner := true, locationName := loc.name, prize := loc.prize,
         emoji := loc.emoji, accessTime := r.accessTime, winnerTime := none },
       { winners := if wF then shared.winners
                    else setKey lw r.locationId (winnerRecordOf (mkAccessLog r)),
         logs := if lF then shared.logs
                 else appendLog ll { mkAccessLog r with isWinner := true } }) := by
  unfold commitPhase
  rw [h]

lemma adminReset_state (s : ServerState) :
    (adminReset s).2 = initState := by
  rfl

/-- C1: the guarantee that for any location, across any number of concurrent
participate calls, exactly one call observes `isWinner = true`, fails on this
code.  Under the event-loop schedule modeled by `raceRun` — both `gangnam`
calls complete their `loadData` awaits (lines 94–95) against the initial
state before either reaches `saveData` — both calls are answered with
`isWinner = true`, and the second call's winner record then overwrites the
first's in `winners.json` (the whole-document write of line 122). -/
theorem race_two_winners :
    raceRun.1.1 = Except.ok
      { isWinner := true, locationName := "강남역",
        prize := "스타벅스 아메리카노", emoji := "☕",
        accessTime := "t1-client", winnerTime := none } ∧
    raceRun.1.2 = Except.ok
      { isWinner := true, locationName := "강남역",
        prize := "스타벅스 아메리카노", emoji := "☕",
        accessTime := "t1-client-b", winnerTime := none } ∧
    lookupKey raceRun.2.winners "gangnam" =
      some (winnerRecordOf (mkAccessLog reqRace)) := by decide

/-- C2: once a winner record for a location is stored, any adjudication that
reads it answers `isWinner = false` and leaves the winners document exactly
as it was; adjudication never duplicates a location key (at most one record
per location); and reset empties the mapping. -/
theorem winner_record_immutable :
    (∀ (s : ServerState) (r : Request) (w : WinnerRecord),
      lookupKey s.winners r.locationId = some w →
      ((participate s r).2).winners = s.winners ∧
      lookupKey ((participate s r).2).winners r.locationId = some w ∧
      ∀ res, (participate s r).1 = Except.ok res → res.isWinner = false) ∧
    (∀ (s : ServerState) (r : Request),
      (s.winners.map Prod.fst).Nodup →
      (((participate s r).2).winners.map Prod.fst).Nodup) ∧
    (∀ s : ServerState, ((adminReset s).2).winners = []) := by
  refine ⟨?_, ?_, fun s => rfl⟩
  · intro s r w hw
    cases hl : lookupKey LOCATIONS r.locationId with
    | none =>
        unfold participate
        rw [participateResume_of_unknown false false s r s.winners s.logs hl]
        exact ⟨rfl, hw, fun res h => by simp at h⟩
    | some loc =>
        unfold participate
        rw [participateResume_of_known false false s r loc s.winners s.logs hl,
            commitPhase_of_winner false false s r loc s.winners s.logs w hw]
        refine ⟨rfl, hw, ?_⟩
        intro res h
        injection h with h2
        rw [← h2]
  · intro s r h
    cases hl : lookupKey LOCATIONS r.locationId with
    | none =>
        unfold participate
        rw [participateResume_of_unknown false false s r s.winners s.logs hl]
        exact h
    | some loc =>
        cases hw : lookupKey s.winners r.locationId with
        | some w =>
            unfold participate
            rw [participateResume_of_known false false s r loc
                  s.winners s.logs hl,
                commitPhase_of_winner false false s r loc
                  s.winners s.logs w hw]
            exact h
        | none =>
            unfold participate
            rw [participateResume_of_known false false s r loc
                  s.winners s.logs hl,
                commitPhase_of_no_winner false false s r loc
                  s.winners s.logs hw]
            exact setKey_keys_nodup s.winners r.locationId
              (winnerRecordOf (mkAccessLog r)) h

/-- C2 witness: in the §8 scenario, `gangnam` already has its winner when the
third visit arrives; that visit loses and the winners document is kept. -/
theorem winner_record_immutable_witness :
    lookupKey scenState1.winners "gangnam" =
      some (winnerRecordOf (mkAccessLog reqA1)) ∧
    ((participate scenState1 reqA2).2).winners = scenState1.winners ∧
    (((participate scenState1 reqA2).2).winners.map Prod.fst).Nodup ∧
    ((adminReset scenState1).2).winners = [] := by
  refine ⟨by decide,
    (winner_record_immutable.1 scenState1 reqA2
      (winnerRecordOf (mkAccessLog reqA1)) (by decide)).1,
    winner_record_immutable.2.1 scenState1 reqA2 (by decide),
    winner_record_immutable.2.2 scenState1⟩

/-- C3 counterexample: the claim that a failing store write during
adjudication surfaces as a failure response is false on this code.  With both
document writes failing, the `gangnam` call is still answered with the full
success body (`isWinner = true`), while the durable state silently stays
exactly as it was — the winner record is lost. -/
theorem write_failure_still_success_cex :
    (participateF true true initState reqA1).1 = Except.ok
      { isWinner := true, locationName := "강남역",
        prize := "스타벅스 아메리카노", emoji := "☕",
        accessTime := "t1-client", winnerTime := none } ∧
    (participateF true true initState reqA1).2 = initState := by decide

/-- C3 amended: a failing document write during adjudication is caught inside
`saveData` (lines 50–56) and only logged; the caller receives exactly the
response of a fully successful call — a success body whenever the location
exists — and never a persistence-failure response.  The failed write leaves
the durable document unchanged. -/
theorem write_failure_swallowed (wF lF : Bool) (s : ServerState)
    (r : Request) (loc : Location)
    (hl : lookupKey LOCATIONS r.locationId = some loc) :
    (participateF wF lF s r).1 = (participate s r).1 ∧
    ∃ res, (participateF wF lF s r).1 = Except.ok res := by
  unfold participateF participate
  rw [participateResume_of_known wF lF s r loc s.winners s.logs hl,
      participateResume_of_known false false s r loc s.winners s.logs hl]
  cases hw : lookupKey s.winners r.locationId with
  | some w =>
      rw [commitPhase_of_winner wF lF s r loc s.winners s.logs w hw,
          commitPhase_of_winner false false s r loc s.winners s.logs w hw]
      exact ⟨rfl, ⟨_, rfl⟩⟩
  | none =>
      rw [commitPhase_of_no_winner wF lF s r loc s.winners s.logs hw,
          commitPhase_of_no_winner false false s r loc s.winners s.logs hw]
      exact ⟨rfl, ⟨_, rfl⟩⟩

/-- C3 amended witness: both writes fail on the first `gangnam` visit. -/
theorem write_failure_swallowed_witness :
    (participateF true true initState reqA1).1 =
      (participate initState reqA1).1 ∧
    ∃ res, (participateF true true initState reqA1).1 = Except.ok res :=
  write_failure_swallowed true true initState reqA1
    ⟨"강남역", "스타벅스 아메리카노", "☕"⟩ (by decide)

/-- C4 counterexample: the claim that a loser's `winnerTime` equals the
winning attempt's server-assigned timestamp is false on this code.  In the
stored `gangnam` winner record the client-reported time is `"t1-client"` and
the server-assigned `timestamp` is `"t1-server"`; the second `gangnam` visit
is answered with `winnerTime = "t1-client"` — the client-reported time. -/
theorem winnerTime_client_time_cex :
    (participate scenState1 reqA2).1 = Except.ok
      { isWinner := false, locationName := "강남역",
        prize := "스타벅스 아메리카노", emoji := "☕",
        accessTime := "t2-client", winnerTime := some "t1-client" } ∧
    reqA1.accessTime = "t1-client" ∧
    (lookupKey scenState1.winners "gangnam").map
      (fun w => w.timestamp) = some "t1-server" ∧
    ¬ (some "t1-client" = some ("t1-server" : String)) := by decide

/-- C4 amended: for every adjudication of a location that already has a
winner, the `winnerTime` field of the response equals the winning record's
stored `accessTime` — the winner's client-reported time (line 124), not the
server-assigned `timestamp`. -/
theorem winnerTime_eq_winner_accessTime (s : ServerState) (r : Request)
    (loc : Location) (w : WinnerRecord)
    (hl : lookupKey LOCATIONS r.locationId = some loc)
    (hw : lookupKey s.winners r.locationId = some w) :
    (participate s r).1 = Except.ok
      { isWinner := false, locationName := loc.name, prize := loc.prize,
        emoji := loc.emoji, accessTime := r.accessTime,
        winnerTime := some w.accessTime } := by
  unfold participate
  rw [participateResume_of_known false false s r loc s.winners s.logs hl,
      commitPhase_of_winner false false s r loc s.winners s.logs w hw]

/-- C4 amended witness: the third §8 scenario visit loses against the stored
`gangnam` record and is shown that record's `accessTime`. -/
theorem winnerTime_eq_winner_accessTime_witness :
    (participate scenState1 reqA2).1 = Except.ok
      { isWinner := false, locationName := "강남역",
        prize := "스타벅스 아메리카노", emoji := "☕",
        accessTime := reqA2.accessTime,
        winnerTime := some (winnerRecordOf (mkAccessLog reqA1)).accessTime } :=
  winnerTime_eq_winner_accessTime scenState1 reqA2
    ⟨"강남역", "스타벅스 아메리카노", "☕"⟩
    (winnerRecordOf (mkAccessLog reqA1)) (by decide) (by decide)

/-- C5: adjudicating or querying a locationId that is not in the catalog is
answered with the unknown-location error and changes nothing: the state is
returned untouched — winners mapping identical, no log entry appended. -/
theorem unknown_location_rejected (s : ServerState) (r : Request)
    (qid : String)
    (hr : lookupKey LOCATIONS r.locationId = none)
    (hq : lookupKey LOCATIONS qid = none) :
    participate s r = (Except.error "존재하지 않는 장소입니다.", s) ∧
    ((participate s r).2).winners = s.winners ∧
    ((participate s r).2).logs = s.logs ∧
    getLocationById s qid = Except.error "존재하지 않는 장소입니다." := by
  have h1 : participate s r = (Except.error "존재하지 않는 장소입니다.", s) := by
    unfold participate
    exact participateResume_of_unknown false false s r s.winners s.logs hr
  refine ⟨h1, by rw [h1], by rw [h1], ?_⟩
  unfold getLocationById
  rw [hq]

/-- C5 witness: `"seoul"` and `"busan"` are not catalog locations. -/
theorem unknown_location_rejected_witness :
    participate scenState1 reqUnknown =
      (Except.error "존재하지 않는 장소입니다.", scenState1) ∧
    ((participate scenState1 reqUnknown).2).winners = scenState1.winners ∧
    ((participate scenState1 reqUnknown).2).logs = scenState1.logs ∧
    getLocationById scenState1 "busan" =
      Except.error "존재하지 않는 장소입니다." :=
  unknown_location_rejected scenState1 reqUnknown "busan"
    (by decide) (by decide)

/-- C6: every adjudicated attempt is pushed onto the log which is then
truncated to the most recent 1000 entries (oldest-first eviction): each valid
participate call rewrites the log as `appendLog`, `appendLog` keeps exactly
the most recent 1000 of the appended sequence, and folding 1005 appends from
an empty log leaves exactly 1000 entries — the sequence minus its 5 oldest,
in arrival order. -/
theorem log_bound_1000 :
    (∀ (s : ServerState) (r : Request) (loc : Location),
      lookupKey LOCATIONS r.locationId = some loc →
      ∃ e : AccessLog, ((participate s r).2).logs = appendLog s.logs e) ∧
    (∀ (logs : List AccessLog) (e : AccessLog),
      appendLog logs e = lastN 1000 (logs ++ [e])) ∧
    (∀ es : List AccessLog, es.length = 1005 →
      (es.foldl appendLog []).length = 1000 ∧
      es.foldl appendLog [] = es.drop 5) := by
  refine ⟨?_, ?_, ?_⟩
  · intro s r loc hl
    unfold participate
    rw [participateResume_of_known false false s r loc s.winners s.logs hl]
    cases hw : lookupKey s.winners r.locationId with
    | some w =>
        rw [commitPhase_of_winner false false s r loc s.winners s.logs w hw]
        exact ⟨_, rfl⟩
    | none =>
        rw [commitPhase_of_no_winner false false s r loc s.winners s.logs hw]
        exact ⟨_, rfl⟩
  · intro logs e
    rw [appendLog, truncateLogs_eq_lastN]
  · intro es h
    have hdrop : es.foldl appendLog [] = es.drop 5 := by
      rw [foldl_appendLog_nil]
      unfold lastN
      rw [h]
    exact ⟨by rw [hdrop, List.length_drop, h], hdrop⟩

/-- C6 witness: a valid visit appends one entry, and 1005 identical entries
folded into the empty log leave the most recent 1000. -/
theorem log_bound_1000_witness :
    (∃ e : AccessLog,
      ((participate initState reqA1).2).logs = appendLog initState.logs e) ∧
    ((List.replicate 1005 (mkAccessLog reqA1)).foldl appendLog []).length
      = 1000 ∧
    (List.replicate 1005 (mkAccessLog reqA1)).foldl appendLog [] =
      (List.replicate 1005 (mkAccessLog reqA1)).drop 5 := by
  refine ⟨log_bound_1000.1 initState reqA1
      ⟨"강남역", "스타벅스 아메리카노", "☕"⟩ (by decide), ?_, ?_⟩
  · exact (log_bound_1000.2.2 _ (by rw [List.length_replicate])).1
  · exact (log_bound_1000.2.2 _ (by rw [List.length_replicate])).2

/-- C7: after reset both documents are empty: every catalog location is
reported with `hasWinner = false` and `winnerTime = null`, and the admin
winners and logs views answer empty collections. -/
theorem reset_clears_state (s : ServerState) (id : String) (loc : Location)
    (h : lookupKey LOCATIONS id = some loc) :
    getLocationById ((adminReset s).2) id = Except.ok
      { name := loc.name, prize := loc.prize, emoji := loc.emoji,
        locationId := id, hasWinner := false, winnerTime := none } ∧
    adminWinners ((adminReset s).2) = [] ∧
    adminLogs ((adminReset s).2) = [] := by
  rw [adminReset_state]
  refine ⟨?_, rfl, rfl⟩
  unfold getLocationById
  rw [h]
  rfl

/-- C7 witness: reset after the §8 scenario, then query `hongdae`. -/
theorem reset_clears_state_witness :
    getLocationById ((adminReset scenState3).2) "hongdae" = Except.ok
      { name := "홍대입구역", prize := "투썸플레이스 케이크", emoji := "🍰",
        locationId := "hongdae", hasWinner := false, winnerTime := none } ∧
    adminWinners ((adminReset scenState3).2) = [] ∧
    adminLogs ((adminReset scenState3).2) = [] :=
  reset_clears_state scenState3 "hongdae"
    ⟨"홍대입구역", "투썸플레이스 케이크", "🍰"⟩ (by decide)

/-- C8: on the §8 scenario — visits (gangnam, t1), (hongdae, t1),
(gangnam, t2) from a fresh state — the stats view reports the catalog size
as total locations, 2 winners, 3 logged participants, and per-location
counts 2/1/0/0/0 with `hasWinner` exactly where a record exists. -/
theorem stats_scenario :
    adminStats scenState3 =
      { totalLocations := 5, winnersCount := 2, totalParticipants := 3,
        participantsByLocation :=
          [ ("gangnam",
              { name := "강남역", count := 2, hasWinner := true }),
            ("hongdae",
              { name := "홍대입구역", count := 1, hasWinner := true }),
            ("myeongdong",
              { name := "명동역", count := 0, hasWinner := false }),
            ("itaewon",
              { name := "이태원역", count := 0, hasWinner := false }),
            ("jamsil",
              { name := "잠실역", count := 0, hasWinner := false }) ] } ∧
    LOCATIONS.length = 5 := by decide

/-- C9 counterexample: the claim that no two attempts ever share an
identifier is false on this code.  `id` is `Date.now()` (line 99), so the
two attempts of `sameMsState` — handled within the same millisecond at two
different locations — both get identifier 7777. -/
theorem duplicate_id_same_ms_cex :
    sameMsState.logs.map (fun a => a.id) = [7777, 7777] ∧
    sameMsState.logs.map (fun a => a.locationId) = ["gangnam", "hongdae"] ∧
    reqMs1.now = reqMs2.now := by decide

/-- C9 amended: every attempt's identifier is the value of `Date.now()` when
it was created, so identifiers are non-decreasing in creation order and two
attempts get distinct identifiers only when their clock values differ;
attempts created within the same millisecond share an identifier. -/
theorem visit_id_is_clock (s : ServerState) (r : Request) (loc : Location)
    (hl : lookupKey LOCATIONS r.locationId = some loc) :
    ∃ e : AccessLog, ((participate s r).2).logs = appendLog s.logs e ∧
      e.id = r.now ∧ e.locationId = r.locationId ∧
      e.timestamp = r.nowISO := by
  unfold participate
  rw [participateResume_of_known false false s r loc s.winners s.logs hl]
  cases hw : lookupKey s.winners r.locationId with
  | some w =>
      rw [commitPhase_of_winner false false s r loc s.winners s.logs w hw]
      exact ⟨_, rfl, rfl, rfl, rfl⟩
  | none =>
      rw [commitPhase_of_no_winner false false s r loc s.winners s.logs hw]
      exact ⟨_, rfl, rfl, rfl, rfl⟩

/-- C9 amended witness: the first same-millisecond request gets its clock
value 7777 as identifier. -/
theorem visit_id_is_clock_witness :
    ∃ e : AccessLog,
      ((participate initState reqMs1).2).logs = appendLog initState.logs e ∧
      e.id = reqMs1.now ∧ e.locationId = reqMs1.locationId ∧
      e.timestamp = reqMs1.nowISO :=
  visit_id_is_clock initState reqMs1
    ⟨"강남역", "스타벅스 아메리카노", "☕"⟩ (by decide)

/-- C10: because `saveData` catches every write error internally and never
throws, the catch arm of `POST /api/admin/reset` is unreachable: whatever the
two document writes do, the handler answers the success confirmation — and
when both writes fail the durable state is fully unchanged, so a failed reset
is indistinguishable to the caller from a successful one. -/
theorem reset_always_success (wF lF : Bool) (s : ServerState) :
    (adminResetF wF lF s).1 = Except.ok "이벤트가 초기화되었습니다." ∧
    (adminResetF true true s).2 = s := by
  cases wF <;> cases lF <;> exact ⟨rfl, rfl⟩
